import Mathlib

/-!
Shallow embedding of the order-taking backend (engeve89/burguerdokasite) for
verification of its natural-language specification.

The repository contains several near-duplicate revisions of the same server.
Naming convention used here:
  * unsuffixed definitions come from `src/index.js` (first revision in the file),
  * definitions suffixed `V0` come from `src/unnamed/part_000`.
Each definition's doc comment cites the concrete source location it embeds.
-/

set_option maxRecDepth 4096

/-! ## Phone normalizer -/

/-- The digit-cleanup step `telefone.replace(/\D/g, '')` shared by both
revisions of `normalizarTelefone` (src/index.js line 184,
src/unnamed/part_000 line 121). -/
def somenteDigitos (s : String) : List Char :=
  s.data.filter Char.isDigit

/-- The country-code strip `if (limpo.startsWith('55')) limpo = limpo.substring(2)`
shared by both revisions (src/index.js line 185, src/unnamed/part_000 line 122). -/
def semCodigoPais (l : List Char) : List Char :=
  if l.take 2 = ['5', '5'] then l.drop 2 else l

/-- `normalizarTelefone` from src/index.js lines 182-188: strip non-digits,
strip a leading `55`, reject when fewer than 10 or more than 11 digits remain,
and return `55` re-prepended to the remaining digits (the mobile `9` is kept).
The JS `typeof telefone !== 'string'` guard is handled by the `JsVal` wrapper
`normalizarTelefoneJs` below. -/
def normalizarTelefone (telefone : String) : Option String :=
  let limpo := semCodigoPais (somenteDigitos telefone)
  if limpo.length < 10 ∨ limpo.length > 11 then none
  else some (String.mk ('5' :: '5' :: limpo))

/-- `normalizarTelefone` from src/unnamed/part_000 lines 119-132: same cleanup,
but the two-digit area code is split off and a leading mobile `9` of a 9-digit
subscriber number is dropped; fails unless the subscriber number ends up with
exactly 8 digits. -/
def normalizarTelefoneV0 (telefone : String) : Option String :=
  let limpo := semCodigoPais (somenteDigitos telefone)
  if limpo.length < 10 ∨ limpo.length > 11 then none
  else
    let ddd := limpo.take 2
    let numeroBase := limpo.drop 2
    let numeroBase :=
      if numeroBase.length = 9 ∧ numeroBase.take 1 = ['9'] then
        numeroBase.drop 1
      else numeroBase
    if numeroBase.length ≠ 8 then none
    else some (String.mk ('5' :: '5' :: (ddd ++ numeroBase)))

lemma somenteDigitos_all (s : String) :
    ∀ c ∈ somenteDigitos s, c.isDigit = true := by
  intro c hc
  exact (List.mem_filter.mp hc).2

lemma semCodigoPais_all (l : List Char) (h : ∀ c ∈ l, c.isDigit = true) :
    ∀ c ∈ semCodigoPais l, c.isDigit = true := by
  intro c hc
  unfold semCodigoPais at hc
  split at hc
  · exact h c (List.mem_of_mem_drop hc)
  · exact h c hc

lemma filter_digits_self (l : List Char) (h : ∀ c ∈ l, c.isDigit = true) :
    l.filter Char.isDigit = l :=
  List.filter_eq_self.mpr h

/-- Unfolded success description of `normalizarTelefone`. -/
lemma normalizarTelefone_eq_some {x : String} {y : String}
    (h : normalizarTelefone x = some y) :
    y = String.mk ('5' :: '5' :: semCodigoPais (somenteDigitos x)) ∧
    10 ≤ (semCodigoPais (somenteDigitos x)).length ∧
    (semCodigoPais (somenteDigitos x)).length ≤ 11 := by
  by_cases hc : (semCodigoPais (somenteDigitos x)).length < 10 ∨
      (semCodigoPais (somenteDigitos x)).length > 11
  · simp [normalizarTelefone, hc] at h
  · simp [normalizarTelefone, hc] at h
    push_neg at hc
    exact ⟨h.symm, hc.1, hc.2⟩

/-- A successful `normalizarTelefone` output normalizes to itself:
the idempotence property from the specification. -/
lemma normalizarTelefone_idem {x y : String}
    (h : normalizarTelefone x = some y) :
    normalizarTelefone y = some y := by
  obtain ⟨hy, hlo, hhi⟩ := normalizarTelefone_eq_some h
  set l := semCodigoPais (somenteDigitos x) with hl
  have hdig : ∀ c ∈ l, c.isDigit = true :=
    semCodigoPais_all _ (somenteDigitos_all x)
  have hclean : somenteDigitos y = '5' :: '5' :: l := by
    rw [hy]
    show ('5' :: '5' :: l).filter Char.isDigit = '5' :: '5' :: l
    refine filter_digits_self _ ?_
    intro c hc
    rcases List.mem_cons.mp hc with rfl | hc
    · rfl
    rcases List.mem_cons.mp hc with rfl | hc
    · rfl
    exact hdig c hc
  have hstrip : semCodigoPais (somenteDigitos y) = l := by
    rw [hclean]
    unfold semCodigoPais
    simp
  unfold normalizarTelefone
  rw [hstrip]
  have hlen : ¬ (l.length < 10 ∨ l.length > 11) := by omega
  simp only [hlen, if_false]
  rw [hy]

/-- C6: the phone normalizer of src/index.js lines 182-188 is idempotent:
whenever `normalizarTelefone x` succeeds with output `y`, feeding `y` back in
yields the same result, i.e. `normalize(normalize(x)) = normalize(x)`. -/
theorem normalizarTelefone_idempotente (x y : String)
    (h : normalizarTelefone x = some y) :
    normalizarTelefone y = normalizarTelefone x := by
  rw [h]
  exact normalizarTelefone_idem h

/-- Witness for C6 at the concrete input `"(11) 99123-4567"`. -/
theorem normalizarTelefone_idempotente_witness :
    normalizarTelefone "(11) 99123-4567" = some "5511991234567" ∧
    normalizarTelefone "5511991234567" = normalizarTelefone "(11) 99123-4567" :=
  ⟨by decide, normalizarTelefone_idempotente "(11) 99123-4567" "5511991234567" (by decide)⟩

/-- C7 counterexample: two valid Brazilian-style inputs with a 2-digit area
code — a 10-digit landline and an 11-digit mobile — on which the
src/index.js normalizer succeeds with outputs of DIFFERENT total lengths
(12 vs 13), refuting "one fixed total length for every such input". -/
theorem normalizarTelefone_comprimento_contraexemplo :
    normalizarTelefone "1133334444" = some "551133334444" ∧
    normalizarTelefone "11991234567" = some "5511991234567" ∧
    ("551133334444" : String).length ≠ ("5511991234567" : String).length := by
  refine ⟨by decide, by decide, by decide⟩

/-- C7 amended: on every valid 10-11 digit input the src/index.js normalizer
succeeds and returns a string of length (number of significant digits) + 2 —
so 12 for 10-digit inputs and 13 for 11-digit inputs, not one fixed length;
the src/unnamed/part_000 revision, which strips the mobile `9`, does return
the fixed total length 12 for every valid such input. -/
theorem normalizarTelefone_comprimento_corrigido :
    (∀ s : String, 10 ≤ (semCodigoPais (somenteDigitos s)).length →
      (semCodigoPais (somenteDigitos s)).length ≤ 11 →
      normalizarTelefone s =
        some (String.mk ('5' :: '5' :: semCodigoPais (somenteDigitos s))) ∧
      (String.mk ('5' :: '5' :: semCodigoPais (somenteDigitos s))).length =
        (semCodigoPais (somenteDigitos s)).length + 2) ∧
    (∀ s : String, ((semCodigoPais (somenteDigitos s)).length = 10 ∨
      ((semCodigoPais (somenteDigitos s)).length = 11 ∧
        ((semCodigoPais (somenteDigitos s)).drop 2).take 1 = ['9'])) →
      ∃ y, normalizarTelefoneV0 s = some y ∧ y.length = 12) := by
  constructor
  · intro s hlo hhi
    have hlen : ¬ ((semCodigoPais (somenteDigitos s)).length < 10 ∨
        (semCodigoPais (somenteDigitos s)).length > 11) := by omega
    constructor
    · unfold normalizarTelefone
      simp only [hlen, if_false]
    · simp [String.length]
  · intro s hcase
    set l := semCodigoPais (somenteDigitos s) with hl
    have hlen : ¬ (l.length < 10 ∨ l.length > 11) := by
      rcases hcase with h10 | ⟨h11, _⟩ <;> omega
    have htake : (l.take 2).length = 2 := by
      rw [List.length_take]
      rcases hcase with h10 | ⟨h11, _⟩ <;> omega
    rcases hcase with h10 | ⟨h11, h9⟩
    · have hbase : (l.drop 2).length = 8 := by
        rw [List.length_drop]; omega
      have hnb : (if (l.drop 2).length = 9 ∧ (l.drop 2).take 1 = ['9']
            then (l.drop 2).drop 1 else l.drop 2) = l.drop 2 :=
        if_neg (by simp [hbase])
      have hout : ¬ ((l.drop 2).length ≠ 8) := by omega
      refine ⟨String.mk ('5' :: '5' :: (l.take 2 ++ l.drop 2)), ?_, ?_⟩
      · simp only [normalizarTelefoneV0, ← hl]
        rw [if_neg hlen, hnb, if_neg hout]
      · simp only [String.length, List.length_cons, List.length_append,
          List.length_take, List.length_drop]
        omega
    · have hbase : (l.drop 2).length = 9 := by
        rw [List.length_drop]; omega
      have hbase' : ((l.drop 2).drop 1).length = 8 := by
        rw [List.length_drop]; omega
      have hnb : (if (l.drop 2).length = 9 ∧ (l.drop 2).take 1 = ['9']
            then (l.drop 2).drop 1 else l.drop 2) = (l.drop 2).drop 1 :=
        if_pos ⟨hbase, h9⟩
      have hout : ¬ (((l.drop 2).drop 1).length ≠ 8) := by omega
      refine ⟨String.mk ('5' :: '5' :: (l.take 2 ++ (l.drop 2).drop 1)), ?_, ?_⟩
      · simp only [normalizarTelefoneV0, ← hl]
        rw [if_neg hlen, hnb, if_neg hout]
      · simp only [String.length, List.length_cons, List.length_append,
          List.length_take, List.length_drop]
        omega

/-- Witness for the amended C7 statement at the concrete mobile input
`"11991234567"`. -/
theorem normalizarTelefone_comprimento_corrigido_witness :
    normalizarTelefone "11991234567" =
      some (String.mk ('5' :: '5' :: semCodigoPais (somenteDigitos "11991234567"))) ∧
    ∃ y, normalizarTelefoneV0 "11991234567" = some y ∧ y.length = 12 :=
  ⟨(normalizarTelefone_comprimento_corrigido.1 "11991234567" (by decide) (by decide)).1,
   normalizarTelefone_comprimento_corrigido.2 "11991234567" (by decide)⟩

/-! ## Receipt renderer (`gerarCupomFiscal`) -/

/-- A cart line item as submitted with an order. The JS cart item fields are
`nome`, `preco`, `quantidade`, `observacao`; quantities arrive from the web
form as whole numbers, so `quantidade` is modelled as `Nat` (it is cast to `ℚ`
wherever the source multiplies it with a price). -/
structure Item where
  nome : String
  preco : ℚ
  quantidade : Nat
  observacao : Option String
deriving DecidableEq

/-- The customer data used by the receipt renderer. -/
structure ClienteInfo where
  nome : String
  telefoneFormatado : String
  endereco : String
  referencia : Option String
deriving DecidableEq

/-- An order as passed to `gerarCupomFiscal`. The change-due field `troco`
arrives in the JS as a text amount and is consumed only through
`parseFloat(troco.replace(',', '.'))`; it is modelled here by that parsed
numeric value (`none` models an absent/empty, i.e. falsy, `troco`). -/
structure Pedido where
  cliente : ClienteInfo
  carrinho : List Item
  pagamento : String
  troco : Option ℚ
deriving DecidableEq

/-- Renders an integer number of cents as `reais,centavos` (with a leading
`-` when negative), e.g. `2550 ↦ "25,50"` and `-1050 ↦ "-10,50"`. -/
def formatCents (c : Int) : String :=
  let sinal := if c < 0 then "-" else ""
  let n := c.natAbs
  sinal ++ toString (n / 100) ++ "," ++
    (if n % 100 < 10 then "0" else "") ++ toString (n % 100)

/-- Models JS `x.toFixed(2).replace('.', ',')`: fixed-point rendering with two
decimals and a decimal comma (rounding to the nearest cent, exact for all
amounts appearing in the claims). -/
def toFixed2 (q : ℚ) : String :=
  formatCents (round (q * 100))

lemma toFixed2_eq (q : ℚ) (c : Int) (h : q * 100 = (c : ℚ)) :
    toFixed2 q = formatCents c := by
  unfold toFixed2
  rw [h, round_intCast]

/-- Models JS `String.prototype.padEnd(n, ' ')`. -/
def padEnd (s : String) (n : Nat) : String :=
  s ++ String.mk (List.replicate (n - s.length) ' ')

/-- `const subtotal = carrinho.reduce((total, item) => total + (item.preco *
item.quantidade), 0)` — src/unnamed/part_000 line 136 (same expression in
src/index.js line 192). -/
def subtotal (carrinho : List Item) : ℚ :=
  carrinho.foldl (fun total item => total + item.preco * (item.quantidade : ℚ)) 0

/-- `const taxaEntrega = 5.00` — src/unnamed/part_000 line 137. -/
def taxaEntrega : ℚ := 5

/-- `const total = subtotal + taxaEntrega` — src/unnamed/part_000 line 138. -/
def total (carrinho : List Item) : ℚ :=
  subtotal carrinho + taxaEntrega

/-- `const valorTroco = parseFloat(troco.replace(',', '.')) - total` —
src/unnamed/part_000 line 161. -/
def valorTroco (troco : ℚ) (carrinho : List Item) : ℚ :=
  troco - total carrinho

/-- One iteration of the `carrinho.forEach` loop of src/unnamed/part_000
lines 145-150: `• ${item.quantidade}x ${nomeFormatado} ${precoFormatado}\n`
plus the optional `Obs:` line. -/
def linhaItem (item : Item) : String :=
  let nomeFormatado := padEnd item.nome 25
  let precoFormatado := "R$ " ++ toFixed2 (item.preco * (item.quantidade : ℚ))
  "• " ++ toString item.quantidade ++ "x " ++ nomeFormatado ++ " " ++
    precoFormatado ++ "\n" ++
    (match item.observacao with
     | some obs => "  Obs: " ++ obs ++ "\n"
     | none => "")

/-- The 50-character `=` separator line of the receipt. -/
def linhaIgual : String := String.mk (List.replicate 50 '=')

/-- The 50-character `-` separator line of the receipt. -/
def linhaTraco : String := String.mk (List.replicate 50 '-')

/-- Receipt header: src/unnamed/part_000 lines 140-144 (separator, title with
the injected date/time strings, customer block, items heading) followed by the
item lines. -/
def cupomCabecalho (dataStr horaStr : String) (pedido : Pedido) : String :=
  (linhaIgual ++ "\n") ++
  ("     Doka Burger - Pedido em " ++ dataStr ++ " às " ++
    horaStr ++ "\n") ++
  (linhaIgual ++ "\n") ++
  ("👤 *DADOS DO CLIENTE*\nNome: " ++ pedido.cliente.nome ++ "\nTelefone: " ++
    pedido.cliente.telefoneFormatado ++ "\n\n") ++
  "*ITENS:*\n" ++
  String.join (pedido.carrinho.map linhaItem)

/-- Totals block: src/unnamed/part_000 lines 151-154. -/
def cupomResumo (carrinho : List Item) : String :=
  (linhaTraco ++ "\n") ++
  ("Subtotal:           R$ " ++
    toFixed2 (subtotal carrinho) ++ "\n") ++
  ("Taxa de Entrega:    R$ " ++ toFixed2 taxaEntrega ++ "\n") ++
  ("*TOTAL:* *R$ " ++ toFixed2 (total carrinho) ++ "*\n")

/-- Address block: src/unnamed/part_000 lines 155-157. -/
def cupomEndereco (cliente : ClienteInfo) : String :=
  (linhaTraco ++ "\n") ++
  ("*ENDEREÇO:*\n" ++ cliente.endereco ++ "\n") ++
  (match cliente.referencia with
   | some ref => "Ref: " ++ ref ++ "\n"
   | none => "")

/-- Payment block: src/unnamed/part_000 lines 158-159. -/
def cupomPagamento (pedido : Pedido) : String :=
  (linhaTraco ++ "\n") ++
  ("*FORMA DE PAGAMENTO:*\n" ++ pedido.pagamento ++ "\n")

/-- The conditional change line of src/unnamed/part_000 lines 160-163:
`Troco para: R$ ${amount} (Levar R$ ${valorTroco})\n`. -/
def linhaTroco (troco : ℚ) (carrinho : List Item) : String :=
  "Troco para: R$ " ++ toFixed2 troco ++ " (Levar R$ " ++
    toFixed2 (valorTroco troco carrinho) ++ ")\n"

/-- Receipt footer: src/unnamed/part_000 lines 164-165. -/
def cupomRodape : String :=
  (linhaIgual ++ "\n") ++
  "           OBRIGADO PELA PREFERENCIA!"

/-- `gerarCupomFiscal` from src/unnamed/part_000 lines 134-167, with the
wall-clock date/time strings injected as parameters (the source reads
`new Date()` and formats it; everything else is a pure function of the order).
The segments appear exactly in the order the source appends them to `cupom`. -/
def gerarCupomFiscal (dataStr horaStr : String) (pedido : Pedido) : String :=
  cupomCabecalho dataStr horaStr pedido ++
  cupomResumo pedido.carrinho ++
  cupomEndereco pedido.cliente ++
  cupomPagamento pedido ++
  (if pedido.pagamento = "Dinheiro" then
    match pedido.troco with
    | some t => linhaTroco t pedido.carrinho
    | none => ""
   else "") ++
  cupomRodape

/-- The reference cart of the specification:
`[{price:10.00, qty:2}, {price:5.50, qty:1}]`. -/
def carrinhoRef : List Item :=
  [ { nome := "X-Burger", preco := 10, quantidade := 2, observacao := none },
    { nome := "Suco", preco := 11/2, quantidade := 1, observacao := none } ]

/-- A reference order built on `carrinhoRef`, paid in cash. -/
def pedidoRef (troco : Option ℚ) : Pedido :=
  { cliente :=
      { nome := "Test", telefoneFormatado := "(11) 99123-4567",
        endereco := "Rua A, 1", referencia := none },
    carrinho := carrinhoRef,
    pagamento := "Dinheiro",
    troco := troco }

/-! ## Claims C8 and C9: receipt arithmetic -/

lemma cupomResumoDentro (dataStr horaStr : String) (pedido : Pedido) :
    (cupomResumo pedido.carrinho).data <:+:
      (gerarCupomFiscal dataStr horaStr pedido).data := by
  refine ⟨(cupomCabecalho dataStr horaStr pedido).data,
    (cupomEndereco pedido.cliente ++ cupomPagamento pedido ++
      (if pedido.pagamento = "Dinheiro" then
        match pedido.troco with
        | some t => linhaTroco t pedido.carrinho
        | none => ""
       else "") ++ cupomRodape).data, ?_⟩
  simp [gerarCupomFiscal, String.data_append, List.append_assoc]

lemma linhaTrocoDentro (dataStr horaStr : String) (pedido : Pedido) (t : ℚ)
    (hpag : pedido.pagamento = "Dinheiro") (htr : pedido.troco = some t) :
    (linhaTroco t pedido.carrinho).data <:+:
      (gerarCupomFiscal dataStr horaStr pedido).data := by
  refine ⟨(cupomCabecalho dataStr horaStr pedido ++ cupomResumo pedido.carrinho ++
    cupomEndereco pedido.cliente ++ cupomPagamento pedido).data,
    cupomRodape.data, ?_⟩
  simp [gerarCupomFiscal, String.data_append, List.append_assoc, hpag, htr]

lemma subtotalRef_eq : subtotal carrinhoRef = 51/2 := by
  norm_num [subtotal, carrinhoRef]

lemma totalRef_eq : total carrinhoRef = 61/2 := by
  rw [total, subtotalRef_eq]
  norm_num [taxaEntrega]

lemma cupomResumoRef_eq : cupomResumo carrinhoRef =
    (linhaTraco ++ "\nSubtotal:           R$ 25,50\nTaxa de Entrega:    R$ 5,00\n*TOTAL:* *R$ 30,50*\n") := by
  unfold cupomResumo
  rw [toFixed2_eq (subtotal carrinhoRef) 2550 (by rw [subtotalRef_eq]; norm_num),
      toFixed2_eq taxaEntrega 500 (by norm_num [taxaEntrega]),
      toFixed2_eq (total carrinhoRef) 3050 (by rw [totalRef_eq]; norm_num)]
  decide

/-- C8: the receipt renderer computes the subtotal as the sum over cart items
of unit price times quantity and the total as subtotal plus the fixed 5.00
delivery fee; on the reference cart `[(price 10.00, qty 2), (price 5.50,
qty 1)]` this yields subtotal 25.50 and total 30.50, and the rendered receipt
displays exactly those two amounts. -/
theorem gerarCupomFiscal_subtotal_total :
    (∀ carrinho : List Item,
      subtotal carrinho =
        (carrinho.map fun item => item.preco * (item.quantidade : ℚ)).sum ∧
      total carrinho = subtotal carrinho + 5) ∧
    subtotal carrinhoRef = 51/2 ∧
    total carrinhoRef = 61/2 ∧
    ("Subtotal:           R$ 25,50\n").data <:+:
      (gerarCupomFiscal "05/10/2025" "20:00" (pedidoRef (some 50))).data ∧
    ("*TOTAL:* *R$ 30,50*\n").data <:+:
      (gerarCupomFiscal "05/10/2025" "20:00" (pedidoRef (some 50))).data := by
  refine ⟨?_, subtotalRef_eq, totalRef_eq, ?_, ?_⟩
  · intro carrinho
    exact ⟨by rw [subtotal, List.sum_eq_foldl, List.foldl_map], rfl⟩
  · have hmid : ("Subtotal:           R$ 25,50\n").data <:+: (cupomResumo carrinhoRef).data := by
      rw [cupomResumoRef_eq]
      decide
    exact hmid.trans (cupomResumoDentro "05/10/2025" "20:00" (pedidoRef (some 50)))
  · have hmid : ("*TOTAL:* *R$ 30,50*\n").data <:+: (cupomResumo carrinhoRef).data := by
      rw [cupomResumoRef_eq]
      decide
    exact hmid.trans (cupomResumoDentro "05/10/2025" "20:00" (pedidoRef (some 50)))

lemma valorTroco50_eq : valorTroco 50 carrinhoRef = 39/2 := by
  rw [valorTroco, totalRef_eq]
  norm_num

lemma valorTroco20_eq : valorTroco 20 carrinhoRef = -21/2 := by
  rw [valorTroco, totalRef_eq]
  norm_num

lemma linhaTroco50_eq :
    linhaTroco 50 carrinhoRef = "Troco para: R$ 50,00 (Levar R$ 19,50)\n" := by
  unfold linhaTroco
  rw [toFixed2_eq 50 5000 (by norm_num),
      toFixed2_eq (valorTroco 50 carrinhoRef) 1950 (by rw [valorTroco50_eq]; norm_num)]
  decide

lemma linhaTroco20_eq :
    linhaTroco 20 carrinhoRef = "Troco para: R$ 20,00 (Levar R$ -10,50)\n" := by
  unfold linhaTroco
  rw [toFixed2_eq 20 2000 (by norm_num),
      toFixed2_eq (valorTroco 20 carrinhoRef) (-1050) (by rw [valorTroco20_eq]; norm_num)]
  decide

/-- C9: for a cash order with a supplied change-due amount the renderer
computes change owed as the given amount minus the total and includes the
`Troco para` line carrying both values in the receipt; on the reference cart,
amount 50.00 yields change 19.50, and amount 20.00 yields the negative change
-10.50 which is surfaced inside the receipt text rather than raising
(`gerarCupomFiscal` is a total function). -/
theorem gerarCupomFiscal_troco :
    (∀ (dataStr horaStr : String) (pedido : Pedido) (t : ℚ),
      pedido.pagamento = "Dinheiro" → pedido.troco = some t →
      valorTroco t pedido.carrinho = t - total pedido.carrinho ∧
      (linhaTroco t pedido.carrinho).data <:+:
        (gerarCupomFiscal dataStr horaStr pedido).data) ∧
    valorTroco 50 carrinhoRef = 39/2 ∧
    valorTroco 20 carrinhoRef = -21/2 ∧
    linhaTroco 50 carrinhoRef = "Troco para: R$ 50,00 (Levar R$ 19,50)\n" ∧
    linhaTroco 20 carrinhoRef = "Troco para: R$ 20,00 (Levar R$ -10,50)\n" ∧
    ("Troco para: R$ 20,00 (Levar R$ -10,50)\n").data <:+:
      (gerarCupomFiscal "05/10/2025" "20:00" (pedidoRef (some 20))).data := by
  refine ⟨?_, valorTroco50_eq, valorTroco20_eq, linhaTroco50_eq, linhaTroco20_eq, ?_⟩
  · intro dataStr horaStr pedido t hpag htr
    exact ⟨rfl, linhaTrocoDentro dataStr horaStr pedido t hpag htr⟩
  · have h := linhaTrocoDentro "05/10/2025" "20:00" (pedidoRef (some 20)) 20 rfl rfl
    rwa [show linhaTroco 20 (pedidoRef (some 20)).carrinho =
      "Troco para: R$ 20,00 (Levar R$ -10,50)\n" from linhaTroco20_eq] at h

/-- Witness for C9 at the concrete cash order with change-due 50.00. -/
theorem gerarCupomFiscal_troco_witness :
    valorTroco 50 ((pedidoRef (some 50)).carrinho) =
      50 - total ((pedidoRef (some 50)).carrinho) ∧
    (linhaTroco 50 ((pedidoRef (some 50)).carrinho)).data <:+:
      (gerarCupomFiscal "05/10/2025" "20:00" (pedidoRef (some 50))).data :=
  gerarCupomFiscal_troco.1 "05/10/2025" "20:00" (pedidoRef (some 50)) 50 rfl rfl

/-! ## Order store (`pedidos` table) -/

/-- A row of the `pedidos` table created by `setupDatabase`
(src/unnamed/part_000 lines 86-95): customer phone foreign key, the JSONB
order snapshot (opaque text here), the two notification flags — both
`DEFAULT false` — and the creation timestamp. -/
structure PedidoRow where
  cliente_telefone : String
  dados_pedido : String
  mensagem_confirmacao_enviada : Bool
  mensagem_entrega_enviada : Bool
  criado_em : Nat
deriving DecidableEq

/-- The `pedidos` table: the next value of the SERIAL `id` column plus the
rows keyed by id. -/
structure PedidosStore where
  nextId : Nat
  rows : List (Nat × PedidoRow)
deriving DecidableEq

/-- `SELECT ... FROM pedidos WHERE id = $1`. -/
def findRow (id : Nat) : List (Nat × PedidoRow) → Option PedidoRow
  | [] => none
  | (k, r) :: rest => if k = id then some r else findRow id rest

/-- Row update applied by an `UPDATE pedidos SET ... WHERE id = $1`. -/
def atualizarRow (tgt : Nat) (f : PedidoRow → PedidoRow) :
    List (Nat × PedidoRow) → List (Nat × PedidoRow)
  | [] => []
  | (k, r) :: rest =>
      (if k = tgt then (k, f r) else (k, r)) :: atualizarRow tgt f rest

/-- `INSERT INTO pedidos (cliente_telefone, dados_pedido) VALUES ($1, $2)
RETURNING id` (src/unnamed/part_000 lines 279-283): both flags take their
`DEFAULT false`. -/
def insertPedido (tel dados : String) (criadoEm : Nat) (s : PedidosStore) :
    Nat × PedidosStore :=
  (s.nextId,
   { nextId := s.nextId + 1,
     rows := (s.nextId, ⟨tel, dados, false, false, criadoEm⟩) :: s.rows })

/-- `UPDATE pedidos SET mensagem_confirmacao_enviada = true WHERE id = $1`
(src/unnamed/part_000 lines 305-308). -/
def updateConfirmacao (id : Nat) (s : PedidosStore) : PedidosStore :=
  { s with
    rows := atualizarRow id (fun row => { row with mensagem_confirmacao_enviada := true }) s.rows }

/-- `UPDATE pedidos SET mensagem_entrega_enviada = true WHERE id = $1`
(src/unnamed/part_000 lines 330-333). -/
def updateEntrega (id : Nat) (s : PedidosStore) : PedidosStore :=
  { s with
    rows := atualizarRow id (fun row => { row with mensagem_entrega_enviada := true }) s.rows }

/-- The complete set of write operations the source ever performs on the
`pedidos` table: the order INSERT and the two flag UPDATEs; no other
statement in the repository mutates this table. -/
inductive PedidosOp where
  | insert (tel dados : String) (criadoEm : Nat)
  | marcarConfirmacao (id : Nat)
  | marcarEntrega (id : Nat)

def applyOp (s : PedidosStore) : PedidosOp → PedidosStore
  | .insert tel dados criadoEm => (insertPedido tel dados criadoEm s).2
  | .marcarConfirmacao id => updateConfirmacao id s
  | .marcarEntrega id => updateEntrega id s

def applyOps (s : PedidosStore) (ops : List PedidosOp) : PedidosStore :=
  ops.foldl applyOp s

/-- Well-formedness of the SERIAL id column: every existing key is below
`nextId`. -/
def StoreWF (s : PedidosStore) : Prop :=
  ∀ kr ∈ s.rows, kr.1 < s.nextId

lemma findRow_mem {id : Nat} {l : List (Nat × PedidoRow)} {row : PedidoRow}
    (h : findRow id l = some row) : (id, row) ∈ l := by
  induction l with
  | nil => simp [findRow] at h
  | cons kr rest ih =>
    obtain ⟨k, r⟩ := kr
    by_cases hk : k = id
    · subst hk
      simp [findRow] at h
      subst h
      exact List.mem_cons_self _ _
    · simp [findRow, hk] at h
      exact List.mem_cons_of_mem _ (ih h)

lemma mem_atualizarRow {tgt : Nat} {f : PedidoRow → PedidoRow}
    {l : List (Nat × PedidoRow)} {kr : Nat × PedidoRow}
    (h : kr ∈ atualizarRow tgt f l) : ∃ kr2 ∈ l, kr.1 = kr2.1 := by
  induction l with
  | nil => simp [atualizarRow] at h
  | cons hd rest ih =>
    obtain ⟨k, r⟩ := hd
    simp only [atualizarRow] at h
    rcases List.mem_cons.mp h with heq | h
    · refine ⟨(k, r), List.mem_cons_self _ _, ?_⟩
      rw [heq]
      by_cases hk : k = tgt <;> simp [hk]
    · obtain ⟨kr2, hm, he⟩ := ih h
      exact ⟨kr2, List.mem_cons_of_mem _ hm, he⟩

lemma findRow_atualizar (tgt id : Nat) (f : PedidoRow → PedidoRow)
    (l : List (Nat × PedidoRow)) :
    findRow id (atualizarRow tgt f l) =
      if id = tgt then (findRow id l).map f else findRow id l := by
  induction l with
  | nil => by_cases h : id = tgt <;> simp [findRow, atualizarRow, h]
  | cons kr rest ih =>
    obtain ⟨k, r⟩ := kr
    by_cases hidtgt : id = tgt
    · subst hidtgt
      by_cases hk : k = id
      · subst hk
        simp only [atualizarRow]
        rw [if_pos trivial]
        simp [findRow]
      · simp only [atualizarRow]
        rw [if_neg hk]
        simp [findRow, hk, ih]
    · by_cases hk : k = id
      · subst hk
        have hkt : ¬ k = tgt := hidtgt
        simp only [atualizarRow]
        rw [if_neg hkt]
        simp [findRow, hidtgt]
      · by_cases hkt : k = tgt
        · subst hkt
          simp only [atualizarRow]
          rw [if_pos trivial]
          simp [findRow, hk, ih, hidtgt]
        · simp only [atualizarRow]
          rw [if_neg hkt]
          simp [findRow, hk, ih, hidtgt]

lemma StoreWF_applyOp {s : PedidosStore} (op : PedidosOp) (hwf : StoreWF s) :
    StoreWF (applyOp s op) := by
  cases op with
  | insert tel dados criadoEm =>
    intro kr hkr
    simp only [applyOp, insertPedido] at hkr ⊢
    rcases List.mem_cons.mp hkr with rfl | hkr
    · exact Nat.lt_succ_self _
    · exact Nat.lt_succ_of_lt (hwf kr hkr)
  | marcarConfirmacao id =>
    intro kr hkr
    simp only [applyOp, updateConfirmacao] at hkr ⊢
    obtain ⟨kr2, hm, he⟩ := mem_atualizarRow hkr
    rw [he]
    exact hwf kr2 hm
  | marcarEntrega id =>
    intro kr hkr
    simp only [applyOp, updateEntrega] at hkr ⊢
    obtain ⟨kr2, hm, he⟩ := mem_atualizarRow hkr
    rw [he]
    exact hwf kr2 hm

lemma applyOp_preserva {s : PedidosStore} (op : PedidosOp) {id : Nat}
    {row : PedidoRow} (hwf : StoreWF s) (h : findRow id s.rows = some row) :
    ∃ row2, findRow id (applyOp s op).rows = some row2 ∧
      row2.cliente_telefone = row.cliente_telefone ∧
      row2.dados_pedido = row.dados_pedido ∧
      row2.criado_em = row.criado_em ∧
      (row.mensagem_confirmacao_enviada = true →
        row2.mensagem_confirmacao_enviada = true) ∧
      (row.mensagem_entrega_enviada = true →
        row2.mensagem_entrega_enviada = true) := by
  cases op with
  | insert tel dados criadoEm =>
    have hid : id < s.nextId := hwf _ (findRow_mem h)
    have hne : ¬ (s.nextId = id) := by omega
    refine ⟨row, ?_, rfl, rfl, rfl, fun hh => hh, fun hh => hh⟩
    simp only [applyOp, insertPedido, findRow, hne, if_false]
    exact h
  | marcarConfirmacao tgt =>
    by_cases htgt : id = tgt
    · refine ⟨{ row with mensagem_confirmacao_enviada := true }, ?_, rfl, rfl,
        rfl, fun _ => rfl, fun hh => hh⟩
      simp only [applyOp, updateConfirmacao, findRow_atualizar, htgt, if_pos rfl]
      rw [show findRow tgt s.rows = some row from htgt ▸ h]
      rfl
    · refine ⟨row, ?_, rfl, rfl, rfl, fun hh => hh, fun hh => hh⟩
      simp only [applyOp, updateConfirmacao, findRow_atualizar, htgt, if_false]
      exact h
  | marcarEntrega tgt =>
    by_cases htgt : id = tgt
    · refine ⟨{ row with mensagem_entrega_enviada := true }, ?_, rfl, rfl,
        rfl, fun hh => hh, fun _ => rfl⟩
      simp only [applyOp, updateEntrega, findRow_atualizar, htgt, if_pos rfl]
      rw [show findRow tgt s.rows = some row from htgt ▸ h]
      rfl
    · refine ⟨row, ?_, rfl, rfl, rfl, fun hh => hh, fun hh => hh⟩
      simp only [applyOp, updateEntrega, findRow_atualizar, htgt, if_false]
      exact h

/-- C4: across every sequence of `pedidos`-table operations occurring in the
source (order INSERTs and the two flag UPDATEs), an existing order row keeps
its `dados_pedido` snapshot, owner phone and creation timestamp unchanged,
and its two sent flags move only monotonically (a true flag never becomes
false again; hence each flag performs the false-to-true transition at most
once over the order's lifetime). -/
theorem pedidos_snapshot_imutavel :
    ∀ (ops : List PedidosOp) (s : PedidosStore) (id : Nat) (row : PedidoRow),
      StoreWF s → findRow id s.rows = some row →
      ∃ row2, findRow id (applyOps s ops).rows = some row2 ∧
        row2.cliente_telefone = row.cliente_telefone ∧
        row2.dados_pedido = row.dados_pedido ∧
        row2.criado_em = row.criado_em ∧
        (row.mensagem_confirmacao_enviada = true →
          row2.mensagem_confirmacao_enviada = true) ∧
        (row.mensagem_entrega_enviada = true →
          row2.mensagem_entrega_enviada = true) := by
  intro ops
  induction ops with
  | nil =>
    intro s id row _ h
    exact ⟨row, h, rfl, rfl, rfl, fun hh => hh, fun hh => hh⟩
  | cons op ops ih =>
    intro s id row hwf h
    obtain ⟨row1, h1, hc1, hd1, he1, hm1, hn1⟩ := applyOp_preserva op hwf h
    obtain ⟨row2, h2, hc2, hd2, he2, hm2, hn2⟩ :=
      ih (applyOp s op) id row1 (StoreWF_applyOp op hwf) h1
    exact ⟨row2, h2, hc2.trans hc1, hd2.trans hd1, he2.trans he1,
      fun hh => hm2 (hm1 hh), fun hh => hn2 (hn1 hh)⟩

/-- A concrete store with one fresh order row, for the C4 witness. -/
def rowRefC4 : PedidoRow :=
  { cliente_telefone := "5511991234567", dados_pedido := "{smallcart}",
    mensagem_confirmacao_enviada := false, mensagem_entrega_enviada := false,
    criado_em := 100 }

/-- A concrete operation sequence touching the row of `rowRefC4`. -/
def opsRefC4 : List PedidosOp :=
  [PedidosOp.marcarConfirmacao 0, PedidosOp.insert "5511990000000" "{other}" 101,
   PedidosOp.marcarEntrega 0, PedidosOp.marcarConfirmacao 0]

/-- Witness for C4 at a concrete store and operation sequence. -/
theorem pedidos_snapshot_imutavel_witness :
    ∃ row2, findRow 0 (applyOps ⟨1, [(0, rowRefC4)]⟩ opsRefC4).rows = some row2 ∧
      row2.cliente_telefone = rowRefC4.cliente_telefone ∧
      row2.dados_pedido = rowRefC4.dados_pedido ∧
      row2.criado_em = rowRefC4.criado_em ∧
      (rowRefC4.mensagem_confirmacao_enviada = true →
        row2.mensagem_confirmacao_enviada = true) ∧
      (rowRefC4.mensagem_entrega_enviada = true →
        row2.mensagem_entrega_enviada = true) :=
  pedidos_snapshot_imutavel opsRefC4 ⟨1, [(0, rowRefC4)]⟩ 0 rowRefC4
    (by unfold StoreWF; decide) (by decide)

/-! ## The deferred follow-up task (claims C2 and C3) -/

/-- The two notification kinds scheduled by `/api/criar-pedido`:
the T+30s confirmation message and the T+30min delivery message. -/
inductive Kind where
  | confirmacao
  | entrega
deriving DecidableEq

/-- The flag column the task of each kind SELECTs. -/
def lerFlag : Kind → PedidoRow → Bool
  | .confirmacao, row => row.mensagem_confirmacao_enviada
  | .entrega, row => row.mensagem_entrega_enviada

/-- The flag column the task of each kind UPDATEs to true. -/
def setFlag : Kind → PedidoRow → PedidoRow
  | .confirmacao, row => { row with mensagem_confirmacao_enviada := true }
  | .entrega, row => { row with mensagem_entrega_enviada := true }

/-- `client.sendMessage`, abstracted to its outcome: `sendOk` says whether the
channel delivery succeeds; a failure is a thrown error. -/
def enviarMensagem (sendOk : Bool) : Except String Unit :=
  if sendOk then Except.ok () else Except.error "sendMessage failed"

/-- Observable effects of one firing of the deferred task. -/
structure TaskEffects where
  tentativasEnvio : Nat
  mensagensEntregues : Nat
  erroLogado : Bool
  erroRespondidoAoCliente : Bool
deriving DecidableEq

/-- The body of the deferred `setTimeout` callback registered by
`/api/criar-pedido` (src/unnamed/part_000 lines 293-316 for the confirmation
kind and 318-341 for the delivery kind):
`try { SELECT the kind's flag; if it is false { await client.sendMessage;
await UPDATE flag = true } } catch (error) { logger.error(...) }`.
The catch only logs; when the timer fires the HTTP response of the order
submission has long been sent, so nothing can be surfaced to the submitter
(`erroRespondidoAoCliente` is structurally false). The source schedules each
timer exactly once per order creation and contains no retry path. -/
def tarefaAcompanhamento (kind : Kind) (row : PedidoRow) (sendOk : Bool) :
    PedidoRow × TaskEffects :=
  if lerFlag kind row then
    (row, ⟨0, 0, false, false⟩)
  else
    match enviarMensagem sendOk with
    | Except.ok _ => (setFlag kind row, ⟨1, 1, false, false⟩)
    | Except.error _ => (row, ⟨1, 0, true, false⟩)

/-- C2: if the per-order sent flag of a kind is already true when the deferred
task of that kind fires (e.g. it was fired by a previous process instance
before a restart), the task performs zero send attempts and leaves the order
row completely unchanged. -/
theorem tarefa_flag_ja_marcada (kind : Kind) (row : PedidoRow) (sendOk : Bool)
    (h : lerFlag kind row = true) :
    tarefaAcompanhamento kind row sendOk =
      (row, ⟨0, 0, false, false⟩) := by
  unfold tarefaAcompanhamento
  rw [h]
  rfl

/-- A concrete row with the confirmation flag already set, for the C2 witness. -/
def rowJaMarcada : PedidoRow :=
  { cliente_telefone := "5511991234567", dados_pedido := "{cart}",
    mensagem_confirmacao_enviada := true, mensagem_entrega_enviada := false,
    criado_em := 7 }

/-- Witness for C2: a row whose confirmation flag is already set. -/
theorem tarefa_flag_ja_marcada_witness :
    tarefaAcompanhamento Kind.confirmacao rowJaMarcada false =
      (rowJaMarcada, ⟨0, 0, false, false⟩) :=
  tarefa_flag_ja_marcada Kind.confirmacao rowJaMarcada false rfl

/-- C3: when the channel send of a deferred notification throws, the sent flag
stays false after the task completes (the UPDATE comes after the send and is
skipped), exactly one send attempt is made and never retried, and the failure
is only logged — it is never surfaced to the submitter. -/
theorem tarefa_envio_falho (kind : Kind) (row : PedidoRow)
    (h : lerFlag kind row = false) :
    tarefaAcompanhamento kind row false = (row, ⟨1, 0, true, false⟩) ∧
    lerFlag kind (tarefaAcompanhamento kind row false).1 = false ∧
    (tarefaAcompanhamento kind row false).2.erroLogado = true ∧
    (tarefaAcompanhamento kind row false).2.erroRespondidoAoCliente = false := by
  have hrun : tarefaAcompanhamento kind row false = (row, ⟨1, 0, true, false⟩) := by
    unfold tarefaAcompanhamento
    rw [h]
    rfl
  exact ⟨hrun, by rw [hrun]; exact h, by rw [hrun], by rw [hrun]⟩

/-- A concrete fresh row (both flags false), for the C3 witness. -/
def rowFresca : PedidoRow :=
  { cliente_telefone := "5511991234567", dados_pedido := "{cart}",
    mensagem_confirmacao_enviada := false, mensagem_entrega_enviada := false,
    criado_em := 7 }

/-- Witness for C3: a fresh row whose delivery-kind send fails. -/
theorem tarefa_envio_falho_witness :
    tarefaAcompanhamento Kind.entrega rowFresca false =
      (rowFresca, ⟨1, 0, true, false⟩) :=
  (tarefa_envio_falho Kind.entrega rowFresca rfl).1

/-! ## Claim C1: two concurrent firings of the mark-sent sequence

The deferred task of src/unnamed/part_000 lines 293-316 is not a single
atomic operation: it is `await SELECT flag` then (when the flag was false)
`await sendMessage` then `await UPDATE flag = true`, three separately awaited
steps between which another timer for the same (orderId, kind) pair may run.
The model below interleaves two such invocations over the shared flag. -/

/-- Program counter of one invocation of the deferred task: before the
SELECT, after the SELECT, after the send resolved, and finished. -/
inductive Fase where
  | antesSelect
  | aposSelect
  | aposEnvio
  | concluida
deriving DecidableEq, Fintype

/-- Local state of one invocation: its phase, the flag value its SELECT
returned (`viu`), and whether this invocation delivered the message
(`enviou`, the "reports it performed the transition" observable). -/
structure TarefaLocal where
  fase : Fase
  viu : Bool
  enviou : Bool
deriving DecidableEq, Fintype

/-- Shared flag plus the two invocations. -/
structure EstadoConc where
  flag : Bool
  a : TarefaLocal
  b : TarefaLocal
deriving DecidableEq, Fintype

/-- One atomic step of one invocation against the shared flag, following the
source statement by statement: SELECT records the flag; if it was true the
invocation ends without sending; otherwise `sendMessage` delivers
(`enviou := true`) and then the UPDATE sets the shared flag. -/
def passoTarefa (flag : Bool) (t : TarefaLocal) : Bool × TarefaLocal :=
  match t.fase with
  | Fase.antesSelect => (flag, { t with fase := Fase.aposSelect, viu := flag })
  | Fase.aposSelect =>
      if t.viu then (flag, { t with fase := Fase.concluida })
      else (flag, { t with fase := Fase.aposEnvio, enviou := true })
  | Fase.aposEnvio => (true, { t with fase := Fase.concluida })
  | Fase.concluida => (flag, t)

/-- Scheduler step: `true` advances invocation `a`, `false` advances `b`. -/
def passoSistema (escolheA : Bool) (s : EstadoConc) : EstadoConc :=
  if escolheA then
    let r := passoTarefa s.flag s.a
    { s with flag := r.1, a := r.2 }
  else
    let r := passoTarefa s.flag s.b
    { s with flag := r.1, b := r.2 }

/-- Run a schedule (an arbitrary interleaving prefix). -/
def executa (sched : List Bool) (s : EstadoConc) : EstadoConc :=
  sched.foldl (fun s c => passoSistema c s) s

def tarefaInicial : TarefaLocal :=
  { fase := Fase.antesSelect, viu := false, enviou := false }

/-- Both timers armed, flag still false (the row was just inserted with its
`DEFAULT false`). -/
def estadoInicial : EstadoConc :=
  { flag := false, a := tarefaInicial, b := tarefaInicial }

/-- Run both invocations to completion (three steps each suffice; steps of a
finished invocation are no-ops). -/
def drena (s : EstadoConc) : EstadoConc :=
  passoSistema false (passoSistema false (passoSistema false
    (passoSistema true (passoSistema true (passoSistema true s)))))

/-- Inductive invariant of the two-timer system. -/
def invariante (s : EstadoConc) : Bool :=
  (!s.flag || (s.a.enviou || s.b.enviou)) &&
  (!s.a.viu || s.flag) &&
  (!s.b.viu || s.flag) &&
  (!(s.a.fase == Fase.concluida) || s.flag) &&
  (!(s.b.fase == Fase.concluida) || s.flag) &&
  (!(s.a.fase == Fase.aposEnvio) || s.a.enviou) &&
  (!(s.b.fase == Fase.aposEnvio) || s.b.enviou)

lemma invariante_inicial : invariante estadoInicial = true := by decide

lemma invariante_passo :
    ∀ (c : Bool) (s : EstadoConc),
      invariante s = true → invariante (passoSistema c s) = true := by decide

lemma invariante_executa :
    ∀ (sched : List Bool) (s : EstadoConc),
      invariante s = true → invariante (executa sched s) = true := by
  intro sched
  induction sched with
  | nil => intro s h; exact h
  | cons c rest ih =>
    intro s h
    exact ih (passoSistema c s) (invariante_passo c s h)

lemma drena_entrega :
    ∀ s : EstadoConc, invariante s = true →
      (drena s).flag = true ∧
      ((drena s).a.enviou = true ∨ (drena s).b.enviou = true) := by decide

/-- C1 counterexample: the interleaving in which both timers SELECT before
either UPDATEs. Both invocations read the flag as false, both deliver the
message, and both perform the flag write — refuting "exactly one of the two
invocations performs the transition and reports it did so, under every
interleaving" and "at most one notification message is delivered". -/
theorem markSent_duplo_envio_contraexemplo :
    (executa [true, false, true, true, false, false] estadoInicial).a.enviou = true ∧
    (executa [true, false, true, true, false, false] estadoInicial).b.enviou = true ∧
    (executa [true, false, true, true, false, false] estadoInicial).flag = true := by
  decide

/-- C1 amended: when the two firings are serialized (either order), exactly
one invocation sends and performs the false-to-true transition; and under
every interleaving, after both invocations complete the flag is true and at
least one message was delivered. The at-most-one-delivery half of the claim
fails because the SELECT check and the UPDATE are separate awaited statements
rather than one atomic conditional update. -/
theorem markSent_exclusao_corrigida :
    ((executa [true, true, true, false, false, false] estadoInicial).a.enviou = true ∧
     (executa [true, true, true, false, false, false] estadoInicial).b.enviou = false) ∧
    ((executa [false, false, false, true, true, true] estadoInicial).b.enviou = true ∧
     (executa [false, false, false, true, true, true] estadoInicial).a.enviou = false) ∧
    (∀ sched : List Bool,
      (drena (executa sched estadoInicial)).flag = true ∧
      ((drena (executa sched estadoInicial)).a.enviou = true ∨
       (drena (executa sched estadoInicial)).b.enviou = true)) := by
  refine ⟨by decide, by decide, ?_⟩
  intro sched
  exact drena_entrega _ (invariante_executa sched estadoInicial invariante_inicial)

/-! ## Channel readiness gate and HTTP handlers (claims C5 and C10) -/

/-- The values `whatsappStatus` takes in src/index.js (first revision):
`'initializing'`, `'qr_pending'`, `'ready'`, `'disconnected'`. -/
inductive WhatsStatus where
  | initializing
  | qr_pending
  | ready
  | disconnected
deriving DecidableEq

/-- A row of the `clientes` table (the phone is the assoc key). -/
structure ClienteRow where
  nome : String
  endereco : String
  referencia : Option String
deriving DecidableEq

/-- The relational store: the `clientes` table and the `pedidos` table. -/
structure BancoDados where
  clientes : List (String × ClienteRow)
  pedidos : PedidosStore
deriving DecidableEq

/-- The customer object of an order payload; each field is either present
(a string) or undefined. A non-string primitive in a field behaves like
`undefined` under the `typeof` guard of the normalizer, so `Option String`
suffices for the claims. -/
structure JsCliente where
  telefone : Option String
  telefoneFormatado : Option String
  nome : Option String
  endereco : Option String
  referencia : Option String
deriving DecidableEq

/-- The JS value stored under `pedido.cliente`: possibly absent (`undefined`),
`null`, a primitive, or an actual customer object. -/
inductive JsVal where
  | undef
  | vnull
  | vbool (b : Bool)
  | vnum (q : ℚ)
  | vstr (s : String)
  | vobj (c : JsCliente)
deriving DecidableEq

/-- JS truthiness of a value. -/
def truthy : JsVal → Bool
  | JsVal.undef => false
  | JsVal.vnull => false
  | JsVal.vbool b => b
  | JsVal.vnum q => decide (q ≠ 0)
  | JsVal.vstr s => decide (s ≠ "")
  | JsVal.vobj _ => true

/-- The property read `cliente.telefoneFormatado` (src/index.js line 287):
throws a TypeError when the receiver is `undefined` or `null`, yields
`undefined` on other primitives, reads the field on objects. -/
def lerTelefoneFormatado : JsVal → Except String (Option String)
  | JsVal.undef => Except.error "TypeError: Cannot read properties of undefined"
  | JsVal.vnull => Except.error "TypeError: Cannot read properties of null"
  | JsVal.vbool _ => Except.ok none
  | JsVal.vnum _ => Except.ok none
  | JsVal.vstr _ => Except.ok none
  | JsVal.vobj c => Except.ok c.telefoneFormatado

/-- The property read `cliente.telefone` (src/unnamed/part_000 line 257). -/
def lerTelefone : JsVal → Except String (Option String)
  | JsVal.undef => Except.error "TypeError: Cannot read properties of undefined"
  | JsVal.vnull => Except.error "TypeError: Cannot read properties of null"
  | JsVal.vbool _ => Except.ok none
  | JsVal.vnum _ => Except.ok none
  | JsVal.vstr _ => Except.ok none
  | JsVal.vobj c => Except.ok c.telefone

/-- `normalizarTelefone` applied to a possibly-undefined field value: the
`typeof telefone !== 'string'` guard maps non-strings to null. -/
def normalizarTelefoneJs : Option String → Option String
  | none => none
  | some s => normalizarTelefone s

/-- Same wrapper for the part_000 normalizer. -/
def normalizarTelefoneJsV0 : Option String → Option String
  | none => none
  | some s => normalizarTelefoneV0 s

/-- `normalizarTelefone(req.body.telefone)` in the identification endpoint:
the raw body field is an arbitrary JS value. -/
def normalizarTelefoneVal : JsVal → Option String
  | JsVal.vstr s => normalizarTelefone s
  | _ => none

/-- An `/api/criar-pedido` request body. `carrinho = none` models a value
that is not an array; `pagamento = none` models an absent field. -/
structure JsPedido where
  cliente : JsVal
  carrinho : Option (List Item)
  pagamento : Option String
deriving DecidableEq

/-- JS falsiness of `pedido.pagamento` (`undefined` or the empty string). -/
def pagamentoFalsy : Option String → Bool
  | none => true
  | some s => decide (s = "")

inductive Resposta where
  | ok200
  | badRequest400
  | unavailable503
  | serverError500
deriving DecidableEq

/-- `checkServicesReady` middleware (src/index.js lines 241-249): rejects
with 503 when the database is not ready or the WhatsApp status is not
`'ready'`; otherwise passes control to the handler (`none`). -/
def checkServicesReady (isDbReady : Bool) (st : WhatsStatus) : Option Resposta :=
  if isDbReady = false then some Resposta.unavailable503
  else if st ≠ WhatsStatus.ready then some Resposta.unavailable503
  else none

/-- `cleanInput` (src/index.js lines 304-307): falsy input becomes null,
otherwise non-breaking spaces are replaced by spaces and the ends trimmed. -/
def cleanInput : Option String → Option String
  | none => none
  | some s =>
      if s = "" then none
      else some (String.trim (String.map
        (fun ch => if ch = ' ' then ' ' else ch) s))

/-- `INSERT INTO clientes ... ON CONFLICT (telefone) DO UPDATE SET ...`
(src/index.js lines 316-323): upsert keyed on the normalized phone. -/
def upsertCliente (telefone nome endereco : String) (referencia : Option String) :
    List (String × ClienteRow) → List (String × ClienteRow)
  | [] => [(telefone, ⟨nome, endereco, referencia⟩)]
  | (k, r) :: rest =>
      if k = telefone then (k, ⟨nome, endereco, referencia⟩) :: rest
      else (k, r) :: upsertCliente telefone nome endereco referencia rest

/-- Field accessors used by the upsert; on a non-object customer they yield
`undefined`. -/
def clienteNome : JsVal → Option String
  | JsVal.vobj c => c.nome
  | _ => none

def clienteEndereco : JsVal → Option String
  | JsVal.vobj c => c.endereco
  | _ => none

def clienteReferencia : JsVal → Option String
  | JsVal.vobj c => c.referencia
  | _ => none

/-- Coarse model of `JSON.stringify(pedido)` for the `dados_pedido` column;
no claim inspects its contents, only that it is stored unchanged. -/
def stringifyPedido (p : JsPedido) : String :=
  "\x7bcliente:" ++ (match p.cliente with
    | JsVal.vobj c => c.nome.getD "" ++ "," ++ c.telefone.getD ""
    | _ => "") ++
  ";itens:" ++ toString (p.carrinho.getD []).length ++
  ";pagamento:" ++ p.pagamento.getD "" ++ "\x7d"

/-- The `/api/criar-pedido` handler of src/index.js lines 284-344, behind the
`checkServicesReady` middleware. Order of the source statements: gate, the
`cliente.telefoneFormatado` dereference (outside any try/catch — a missing
customer object throws before validation), the 400 validation, then inside
`try`: cleanInput, customer upsert, receipt render and immediate send
(`sendOk` models the channel outcome; a failure is caught and answered 500
after the upsert already happened), two timers, 200. -/
def criarPedido (isDbReady : Bool) (st : WhatsStatus) (pedido : JsPedido)
    (sendOk : Bool) (db : BancoDados) : Except String (Resposta × BancoDados) :=
  match checkServicesReady isDbReady st with
  | some resp => Except.ok (resp, db)
  | none => do
    let telefoneFormatado ← lerTelefoneFormatado pedido.cliente
    let telefoneNormalizado := normalizarTelefoneJs telefoneFormatado
    if telefoneNormalizado = none ∨ truthy pedido.cliente = false ∨
        pedido.carrinho = none ∨ pedido.carrinho = some [] ∨
        pagamentoFalsy pedido.pagamento then
      Except.ok (Resposta.badRequest400, db)
    else
      let nome := (cleanInput (clienteNome pedido.cliente)).getD ""
      let endereco := (cleanInput (clienteEndereco pedido.cliente)).getD ""
      let referencia := cleanInput (clienteReferencia pedido.cliente)
      let novosClientes := upsertCliente (telefoneNormalizado.getD "") nome
        endereco referencia db.clientes
      let db2 := { db with clientes := novosClientes }
      if sendOk then Except.ok (Resposta.ok200, db2)
      else Except.ok (Resposta.serverError500, db2)

/-- The `/api/criar-pedido` handler of src/unnamed/part_000 lines 252-350:
inline WhatsApp gate, the `cliente.telefone` dereference, the 400 validation,
then inside `try`: customer upsert, order INSERT into `pedidos`, receipt send
(failure caught, 500), two flag-guarded timers, 200. -/
def criarPedidoV0 (st : WhatsStatus) (pedido : JsPedido) (sendOk : Bool)
    (agora : Nat) (db : BancoDados) : Except String (Resposta × BancoDados) :=
  if st ≠ WhatsStatus.ready then Except.ok (Resposta.unavailable503, db)
  else do
    let telefone ← lerTelefone pedido.cliente
    let telefoneNormalizado := normalizarTelefoneJsV0 telefone
    if telefoneNormalizado = none ∨ truthy pedido.cliente = false ∨
        pedido.carrinho = none ∨ pedido.carrinho = some [] ∨
        pagamentoFalsy pedido.pagamento then
      Except.ok (Resposta.badRequest400, db)
    else
      let tel := telefoneNormalizado.getD ""
      let novosClientes := upsertCliente tel ((clienteNome pedido.cliente).getD "")
        ((clienteEndereco pedido.cliente).getD "")
        (clienteReferencia pedido.cliente) db.clientes
      let novosPedidos := (insertPedido tel (stringifyPedido pedido) agora db.pedidos).2
      let db2 := { db with clientes := novosClientes, pedidos := novosPedidos }
      if sendOk then Except.ok (Resposta.ok200, db2)
      else Except.ok (Resposta.serverError500, db2)

/-- The `/api/identificar-cliente` handler of src/index.js lines 251-282,
behind `checkServicesReady`: normalize the body's `telefone`, 400 when
invalid or when the number has no WhatsApp account, otherwise look the
customer up (read-only; this endpoint never mutates the store). -/
def identificarCliente (isDbReady : Bool) (st : WhatsStatus) (telefone : JsVal)
    (isRegistered : Bool) (db : BancoDados) : Resposta × BancoDados :=
  match checkServicesReady isDbReady st with
  | some resp => (resp, db)
  | none =>
    match normalizarTelefoneVal telefone with
    | none => (Resposta.badRequest400, db)
    | some _ =>
      if isRegistered = false then (Resposta.badRequest400, db)
      else (Resposta.ok200, db)

/-- The empty store (SERIAL ids start at 1). -/
def bancoVazio : BancoDados := ⟨[], ⟨1, []⟩⟩

/-- A well-formed order payload for witnesses. -/
def pedidoRefJs : JsPedido :=
  { cliente := JsVal.vobj
      { telefone := some "11991234567", telefoneFormatado := some "(11) 99123-4567",
        nome := some "Test", endereco := some "Rua A, 1", referencia := none },
    carrinho := some carrinhoRef,
    pagamento := some "Dinheiro" }

/-- C5: whenever the channel readiness state is anything other than `ready`,
the identification endpoint and both revisions of the order-submission
endpoint reject with the 503 temporarily-unavailable response, and the store
is returned unchanged — no customer upsert and no order row is written. -/
theorem gate_rejeita_nao_pronto :
    ∀ (isDbReady : Bool) (st : WhatsStatus) (telefone : JsVal)
      (isRegistered : Bool) (pedido : JsPedido) (sendOk : Bool) (agora : Nat)
      (db : BancoDados),
      st ≠ WhatsStatus.ready →
      identificarCliente isDbReady st telefone isRegistered db =
        (Resposta.unavailable503, db) ∧
      criarPedido isDbReady st pedido sendOk db =
        Except.ok (Resposta.unavailable503, db) ∧
      criarPedidoV0 st pedido sendOk agora db =
        Except.ok (Resposta.unavailable503, db) := by
  intro isDbReady st telefone isRegistered pedido sendOk agora db h
  have hgate : checkServicesReady isDbReady st = some Resposta.unavailable503 := by
    unfold checkServicesReady
    cases isDbReady <;> simp [h]
  refine ⟨?_, ?_, ?_⟩
  · unfold identificarCliente
    rw [hgate]
  · unfold criarPedido
    rw [hgate]
  · unfold criarPedidoV0
    rw [if_pos h]

/-- Witness for C5 with the channel disconnected. -/
theorem gate_rejeita_nao_pronto_witness :
    identificarCliente true WhatsStatus.disconnected (JsVal.vstr "11991234567")
      true bancoVazio = (Resposta.unavailable503, bancoVazio) ∧
    criarPedido true WhatsStatus.disconnected pedidoRefJs true bancoVazio =
      Except.ok (Resposta.unavailable503, bancoVazio) ∧
    criarPedidoV0 WhatsStatus.disconnected pedidoRefJs true 100 bancoVazio =
      Except.ok (Resposta.unavailable503, bancoVazio) :=
  gate_rejeita_nao_pronto true WhatsStatus.disconnected (JsVal.vstr "11991234567")
    true pedidoRefJs true 100 bancoVazio (by decide)

/-- C10: a submission payload that omits the customer object makes the
handler throw a TypeError on the `cliente.telefoneFormatado` dereference
(which sits before the validation check), so such a payload is never answered
with the 400 invalid-data response; moreover the `!cliente` disjunct of the
validation guard can never be the deciding test, because every falsy customer
value that survives the dereference yields a non-string phone field, which
already fails the preceding `!telefoneNormalizado` disjunct. -/
theorem criarPedido_cliente_ausente :
    (∀ (pedido : JsPedido) (sendOk : Bool) (db : BancoDados),
      pedido.cliente = JsVal.undef →
      criarPedido true WhatsStatus.ready pedido sendOk db =
        Except.error "TypeError: Cannot read properties of undefined") ∧
    (∀ (v : JsVal) (r : Option String),
      lerTelefoneFormatado v = Except.ok r → truthy v = false →
      normalizarTelefoneJs r = none) := by
  constructor
  · intro pedido sendOk db h
    unfold criarPedido
    rw [show checkServicesReady true WhatsStatus.ready = none from rfl, h]
    rfl
  · intro v r hv ht
    cases v with
    | undef => exact absurd hv (by simp [lerTelefoneFormatado])
    | vnull => exact absurd hv (by simp [lerTelefoneFormatado])
    | vbool b =>
      simp [lerTelefoneFormatado] at hv
      rw [← hv]
      rfl
    | vnum q =>
      simp [lerTelefoneFormatado] at hv
      rw [← hv]
      rfl
    | vstr s =>
      simp [lerTelefoneFormatado] at hv
      rw [← hv]
      rfl
    | vobj c => simp [truthy] at ht

/-- A payload with no customer object at all, for the C10 witness. -/
def pedidoSemCliente : JsPedido :=
  { cliente := JsVal.undef, carrinho := some carrinhoRef, pagamento := some "Pix" }

/-- Witness for C10: the customer-less payload throws instead of receiving
the 400 response, and a surviving falsy customer (the number 0) yields a
null normalized phone. -/
theorem criarPedido_cliente_ausente_witness :
    criarPedido true WhatsStatus.ready pedidoSemCliente true bancoVazio =
      Except.error "TypeError: Cannot read properties of undefined" ∧
    normalizarTelefoneJs none = none :=
  ⟨criarPedido_cliente_ausente.1 pedidoSemCliente true bancoVazio rfl,
   criarPedido_cliente_ausente.2 (JsVal.vnum 0) none rfl rfl⟩
